import Mathlib

/-!
Verification of the configuration-validation core of the
`groq_whisper_cloud` integration
(`src/custom_components/groq_whisper_cloud/config_flow.py`).

The embedding models the candidate configuration record (a Python dict
with optional fields), the remote model-listing call's outcome (either a
transport-level failure or an HTTP response carrying a status code, a
reason phrase and the JSON body's `data` list), the log sink as a list of
emitted events, and the `validate_input` coroutine as a pure function from
the input record and the call outcome to the final record state, the
emitted log and the classification (success, one of the four domain error
kinds, or a propagated connection error).
-/

namespace GroqWhisper

/-- One entry of the response body's `data` array: the value of its `id`
key (`none` when the key is absent, matching Python's `model.get("id")`),
together with the entry's remaining key-value pairs.  Equality of two
entries is the Python dict equality used at
`config_flow.py` line 79 (`model == response.json().get("data")[-1]`). -/
structure ModelEntry where
  id : Option String
  rest : List (String × String)
  deriving DecidableEq, Repr

/-- The candidate configuration record (`data : dict` in
`validate_input`).  Every field is optional because `dict.get` is used
throughout the source; the schema normally guarantees `name`, `api_key`
and `model` are present, but `validate_input` itself never relies on
that. -/
structure ConfigRecord where
  name : Option String
  api_key : Option String
  model : Option String
  temperature : Option Rat
  prompt : Option String
  deriving DecidableEq, Repr

/-- The four domain error kinds raised by `validate_input`
(`config_flow.py` lines 175-188). -/
inductive ErrorKind
  | InvalidAPIKey
  | UnauthorizedError
  | UnknownError
  | WhisperModelNotFound
  deriving DecidableEq, Repr

/-- Outcome of the remote model-listing call (`requests.get`,
`config_flow.py` lines 56-63): either a transport-level failure
(`requests.exceptions.RequestException`) or a response with a status
code, a reason phrase and the optional `data` list of the JSON body
(`response.json().get("data")`, `none` when the key is absent). -/
inductive HttpOutcome
  | transportError
  | response (status : Nat) (reason : String) (body : Option (List ModelEntry))
  deriving DecidableEq, Repr

/-- The events `validate_input` emits to the log sink:
the debug trace of the record (line 48), the debug trace of the remote
call's status and reason (line 65), and the success trace (line 82). -/
inductive LogEvent
  | debugRecord (record : ConfigRecord)
  | debugRequest (status : Nat) (reason : String)
  | debugSuccess
  deriving DecidableEq, Repr

/-- Classification of a `validate_input` run as observed by its caller:
normal return, one of the four raised domain errors, or a propagated
transport exception (caught by the caller as `connection_error`). -/
inductive Outcome
  | success
  | failure (kind : ErrorKind)
  | connectionError
  deriving DecidableEq, Repr

/-- The full observable result of one `validate_input` run: the final
state of the (mutated-in-place) record, the emitted log and the
classification. -/
structure ValidateRun where
  data : ConfigRecord
  log : List LogEvent
  outcome : Outcome
  deriving DecidableEq, Repr

/-- Modelled from the spec: `const.py` is not under `src/`; the spec
(section 3) says `name` defaults to a fixed constant.  The concrete value
is irrelevant to every claim. -/
def DEFAULT_NAME : String := "GroqCloud Whisper"

/-- Modelled from the spec: `const.py` is not under `src/`; the spec
(section 3) says `temperature` defaults to a fixed constant in [0,1].
The concrete value is irrelevant to every claim. -/
def DEFAULT_TEMPERATURE : Rat := 0

/-- Modelled from the spec: `const.py` is not under `src/`; the spec
(section 3) says `prompt` defaults to a fixed constant string.  The
concrete value is irrelevant to every claim. -/
def DEFAULT_PROMPT : String := ""

/-- The mask written over the credential before the debug trace
(`config_flow.py` line 47). -/
def API_KEY_MASK : String := "<api_key>"

/-- The key under which the credential-field error is reported by the
flow (`homeassistant.const.CONF_API_KEY`). -/
def CONF_API_KEY : String := "api_key"

/-- The model-search loop of `config_flow.py` lines 76-80, for a fixed
requested model (`target`) and a fixed last element of the `data` list
(`lastE`, i.e. `response.json().get("data")[-1]`):

    for model in data:
        if model.get("id") == target: break
        if model == data[-1]: raise WhisperModelNotFound

Returns `true` when the loop breaks or is exhausted (validation
succeeds), `false` when `WhisperModelNotFound` is raised. -/
def searchLoop (target : Option String) (lastE : ModelEntry) :
    List ModelEntry → Bool
  | [] => true
  | e :: es =>
    if e.id = target then true
    else if e = lastE then false
    else searchLoop target lastE es

/-- The whole search of lines 76-80: on an empty list the loop body never
runs (and `data[-1]` is never evaluated), so the search trivially
"succeeds"; otherwise run the loop with `data[-1]` as the sentinel. -/
def searchData (target : Option String) : List ModelEntry → Bool
  | [] => true
  | e :: es => searchLoop target ((e :: es).getLast (by simp)) (e :: es)

/-- The status-code classification of `config_flow.py` lines 67-80:
401 raises `InvalidAPIKey`, 403 raises `UnauthorizedError`, any other
non-200 raises `UnknownError`, and on 200 the `data` list (defaulting to
`[]` when the key is absent, line 76) is searched for the requested
model. -/
def classify (status : Nat) (body : Option (List ModelEntry))
    (model : Option String) : Outcome :=
  if status = 401 then Outcome.failure ErrorKind.InvalidAPIKey
  else if status = 403 then Outcome.failure ErrorKind.UnauthorizedError
  else if status ≠ 200 then Outcome.failure ErrorKind.UnknownError
  else if searchData model (body.getD []) then Outcome.success
  else Outcome.failure ErrorKind.WhisperModelNotFound

/-- `validate_input` (`config_flow.py` lines 43-82) as a function of the
input record and the remote call's outcome.

Lines 46-49: the credential is masked, the record is debug-traced, and
the credential is restored.  Lines 51-54: absent `temperature` and
`prompt` are filled with the defaults, mutating the record in place.
Lines 56-63: the remote call; a transport exception propagates uncaught
to the caller (the record's mutation has already happened).  Line 65:
the response's status and reason are debug-traced.  Lines 67-80: the
classification.  Line 82: the success trace. -/
def validate_input (data0 : ConfigRecord) (resp : HttpOutcome) :
    ValidateRun :=
  let traced : ConfigRecord := { data0 with api_key := some API_KEY_MASK }
  let log0 : List LogEvent := [LogEvent.debugRecord traced]
  let data : ConfigRecord :=
    { data0 with
      temperature := some (data0.temperature.getD DEFAULT_TEMPERATURE)
      prompt := some (data0.prompt.getD DEFAULT_PROMPT) }
  match resp with
  | HttpOutcome.transportError => ⟨data, log0, Outcome.connectionError⟩
  | HttpOutcome.response status reason body =>
    let log1 := log0 ++ [LogEvent.debugRequest status reason]
    let outcome := classify status body data.model
    ⟨data,
     if outcome = Outcome.success then log1 ++ [LogEvent.debugSuccess]
     else log1,
     outcome⟩

/-- The result returned by the initial-setup flow step
(`ConfigFlow.async_step_user`, `config_flow.py` lines 91-124): on
success an entry is created from the (mutated) input; every failure is
mapped to an error key and the form is shown again. -/
inductive FlowResult
  | createEntry (title : String) (data : ConfigRecord)
  | showForm (errors : List (String × String))
  deriving DecidableEq, Repr

/-- `ConfigFlow.async_step_user` (`config_flow.py` lines 91-124)
restricted to the case where input was submitted: invoke
`validate_input`; on success create the entry titled by the record's
name (line 102-104); map a propagated transport exception to
`connection_error` (lines 106-108) and each domain error to its key
(lines 109-120). -/
def async_step_user (user_input : ConfigRecord) (resp : HttpOutcome) :
    FlowResult :=
  let run := validate_input user_input resp
  match run.outcome with
  | Outcome.success =>
    FlowResult.createEntry (run.data.name.getD DEFAULT_NAME) run.data
  | Outcome.connectionError =>
    FlowResult.showForm [("base", "connection_error")]
  | Outcome.failure ErrorKind.UnauthorizedError =>
    FlowResult.showForm [("base", "unauthorized")]
  | Outcome.failure ErrorKind.InvalidAPIKey =>
    FlowResult.showForm [(CONF_API_KEY, "invalid_api_key")]
  | Outcome.failure ErrorKind.WhisperModelNotFound =>
    FlowResult.showForm [("base", "whisper_model_not_found")]
  | Outcome.failure ErrorKind.UnknownError =>
    FlowResult.showForm [("base", "unknown")]

/-- Whether a log event carries the credential only in masked form: the
only event embedding a record is the debug trace, and its `api_key`
field must be the mask. -/
def maskedEvent : LogEvent → Bool
  | LogEvent.debugRecord r => r.api_key == some API_KEY_MASK
  | LogEvent.debugRequest _ _ => true
  | LogEvent.debugSuccess => true

/-! ## General lemmas about `validate_input` -/

/-- The final state of the record does not depend on the remote call's
outcome: it is always the input with absent `temperature` and `prompt`
filled in (the normalization of lines 51-54 happens before the call, and
the masking of lines 46-49 is undone by line 49). -/
theorem validate_input_data (r : ConfigRecord) (resp : HttpOutcome) :
    (validate_input r resp).data =
      { r with
        temperature := some (r.temperature.getD DEFAULT_TEMPERATURE)
        prompt := some (r.prompt.getD DEFAULT_PROMPT) } := by
  cases resp <;> rfl

/-- If the sentinel `lastE` occurs in the list and no entry's `id`
matches the target, the loop of lines 76-80 raises
`WhisperModelNotFound`. -/
theorem searchLoop_eq_false (target : Option String) (lastE : ModelEntry)
    (l : List ModelEntry) (hmem : lastE ∈ l)
    (hall : ∀ e ∈ l, e.id ≠ target) :
    searchLoop target lastE l = false := by
  induction l with
  | nil => exact absurd hmem (List.not_mem_nil lastE)
  | cons e es ih =>
    simp only [searchLoop]
    rw [if_neg (hall e (List.mem_cons_self e es))]
    by_cases he : e = lastE
    · rw [if_pos he]
    · rw [if_neg he]
      refine ih ?_ ?_
      · rcases List.mem_cons.mp hmem with h | h
        · exact absurd h.symm he
        · exact h
      · exact fun x hx => hall x (List.mem_cons_of_mem e hx)

/-- On a nonempty `data` list containing no entry whose `id` matches the
target, the search of lines 76-80 raises `WhisperModelNotFound` (the
last element itself fails the id test, so the sentinel comparison fires
at the latest when the loop reaches it). -/
theorem searchData_eq_false (target : Option String) :
    ∀ entries : List ModelEntry, entries ≠ [] →
      (∀ e ∈ entries, e.id ≠ target) → searchData target entries = false
  | [], hne, _ => absurd rfl hne
  | e :: es, _, hall => by
    simp only [searchData]
    exact searchLoop_eq_false target _ (e :: es) (List.getLast_mem _) hall

/-! ## The claims -/

/-- Claim C1 (counterexample to the claim as stated): with status 200
and an empty `data` list — which contains no entry whose `id` equals the
requested model — `validate_input` succeeds instead of failing with
`WhisperModelNotFound`: the `for` loop of line 76 never runs its body on
an empty list, so the raise at line 80 is never reached. -/
theorem C1_empty_data_succeeds :
    (validate_input
      ⟨some "My Whisper", some "sk-abc", some "whisper-large-v3", none, none⟩
      (HttpOutcome.response 200 "OK" (some []))).outcome = Outcome.success
    ∧ (validate_input
        ⟨some "My Whisper", some "sk-abc", some "whisper-large-v3", none, none⟩
        (HttpOutcome.response 200 "OK" (some []))).outcome
      ≠ Outcome.failure ErrorKind.WhisperModelNotFound :=
  ⟨rfl, by decide⟩

/-- Claim C1 (amended): if status is 200 and the `data` list is nonempty
and contains no entry whose `id` equals the requested model, validation
fails with `WhisperModelNotFound`; but when the `data` list is empty, or
the `data` key is absent from the body, validation succeeds (the loop
body never runs). -/
theorem C1_nonempty_unmatched_model_not_found (r : ConfigRecord)
    (reason : String) (entries : List ModelEntry)
    (hne : entries ≠ []) (hall : ∀ e ∈ entries, e.id ≠ r.model) :
    (validate_input r (HttpOutcome.response 200 reason (some entries))).outcome
      = Outcome.failure ErrorKind.WhisperModelNotFound
    ∧ (validate_input r (HttpOutcome.response 200 reason (some []))).outcome
      = Outcome.success
    ∧ (validate_input r (HttpOutcome.response 200 reason none)).outcome
      = Outcome.success := by
  refine ⟨?_, rfl, rfl⟩
  show (if searchData r.model entries then Outcome.success
        else Outcome.failure ErrorKind.WhisperModelNotFound)
      = Outcome.failure ErrorKind.WhisperModelNotFound
  rw [searchData_eq_false r.model entries hne hall]
  rfl

/-- Claim C1, witness: the amended theorem applied to a one-entry list
whose only `id` is a different model. -/
theorem C1_nonempty_unmatched_model_not_found_witness :
    (([⟨some "other-model", []⟩] : List ModelEntry) ≠ [])
    ∧ (validate_input
        ⟨some "My Whisper", some "sk-abc", some "whisper-large-v3", none, none⟩
        (HttpOutcome.response 200 "OK" (some [⟨some "other-model", []⟩]))).outcome
      = Outcome.failure ErrorKind.WhisperModelNotFound :=
  ⟨by decide,
   (C1_nonempty_unmatched_model_not_found _ "OK" _ (by decide) (by decide)).1⟩

/-- Claim C2 (code bug, evaluated at the failing input): the `data` list
`[{id:"a"}, {id:"whisper-large-v3"}, {id:"a"}]` does contain an entry
whose `id` equals the requested model `whisper-large-v3`, yet
`validate_input` fails with `WhisperModelNotFound`: at the first
iteration the entry `{id:"a"}` equals (by dict value equality) the last
element `data[-1]`, so the sentinel check of line 79 fires before the
matching entry is reached. -/
theorem C2_duplicate_entry_masks_present_model :
    ((some "whisper-large-v3") ∈
      ([⟨some "a", []⟩, ⟨some "whisper-large-v3", []⟩, ⟨some "a", []⟩] :
        List ModelEntry).map ModelEntry.id)
    ∧ (validate_input
        ⟨some "My Whisper", some "sk-abc", some "whisper-large-v3", none, none⟩
        (HttpOutcome.response 200 "OK"
          (some [⟨some "a", []⟩, ⟨some "whisper-large-v3", []⟩,
                 ⟨some "a", []⟩]))).outcome
      = Outcome.failure ErrorKind.WhisperModelNotFound :=
  ⟨by decide, rfl⟩

/-- Claim C3: whatever the record and the response body, status 401 makes
`validate_input` fail with `InvalidAPIKey` (line 67-68 fires before the
body is ever inspected). -/
theorem C3_status_401_invalid_api_key (r : ConfigRecord) (reason : String)
    (body : Option (List ModelEntry)) :
    (validate_input r (HttpOutcome.response 401 reason body)).outcome
      = Outcome.failure ErrorKind.InvalidAPIKey := rfl

/-- Claim C4: whatever the record and the response body, status 403 makes
`validate_input` fail with `UnauthorizedError` (lines 70-71). -/
theorem C4_status_403_unauthorized (r : ConfigRecord) (reason : String)
    (body : Option (List ModelEntry)) :
    (validate_input r (HttpOutcome.response 403 reason body)).outcome
      = Outcome.failure ErrorKind.UnauthorizedError := rfl

/-- Claim C5: any status other than 200, 401 and 403 makes
`validate_input` fail with `UnknownError` (lines 73-74), whatever the
record and the body. -/
theorem C5_other_status_unknown_error (r : ConfigRecord) (status : Nat)
    (reason : String) (body : Option (List ModelEntry))
    (h200 : status ≠ 200) (h401 : status ≠ 401) (h403 : status ≠ 403) :
    (validate_input r (HttpOutcome.response status reason body)).outcome
      = Outcome.failure ErrorKind.UnknownError := by
  show classify status body r.model = Outcome.failure ErrorKind.UnknownError
  unfold classify
  rw [if_neg h401, if_neg h403, if_pos h200]

/-- Claim C5, witness: status 500 yields `UnknownError`. -/
theorem C5_other_status_unknown_error_witness :
    ((500 : Nat) ≠ 200)
    ∧ (validate_input
        ⟨some "My Whisper", some "sk-abc", some "whisper-large-v3", none, none⟩
        (HttpOutcome.response 500 "Internal Server Error" none)).outcome
      = Outcome.failure ErrorKind.UnknownError :=
  ⟨by decide,
   C5_other_status_unknown_error _ 500 "Internal Server Error" none
     (by decide) (by decide) (by decide)⟩

/-- Claim C6: a transport-level failure of the remote call surfaces from
`validate_input` as the connection-error outcome, which is distinct from
every one of the four domain error kinds, and the calling flow step maps
it to the `connection_error` form error (lines 106-108). -/
theorem C6_transport_failure_connection_error (r : ConfigRecord) :
    (validate_input r HttpOutcome.transportError).outcome
      = Outcome.connectionError
    ∧ (∀ kind : ErrorKind,
        (validate_input r HttpOutcome.transportError).outcome
          ≠ Outcome.failure kind)
    ∧ async_step_user r HttpOutcome.transportError
      = FlowResult.showForm [("base", "connection_error")] := by
  refine ⟨rfl, ?_, rfl⟩
  intro kind h
  exact Outcome.noConfusion h

/-- Claim C6, witness: the theorem applied to a concrete record, the
distinctness conjunct instantiated at `InvalidAPIKey`. -/
theorem C6_transport_failure_connection_error_witness :
    (validate_input
        ⟨some "My Whisper", some "sk-abc", some "whisper-large-v3", none, none⟩
        HttpOutcome.transportError).outcome
      ≠ Outcome.failure ErrorKind.InvalidAPIKey
    ∧ async_step_user
        ⟨some "My Whisper", some "sk-abc", some "whisper-large-v3", none, none⟩
        HttpOutcome.transportError
      = FlowResult.showForm [("base", "connection_error")] :=
  ⟨(C6_transport_failure_connection_error _).2.1 ErrorKind.InvalidAPIKey,
   (C6_transport_failure_connection_error _).2.2⟩

/-- Claim C7: a record lacking both `temperature` and `prompt`, once
validated successfully, carries the default temperature and the default
prompt (lines 51-54). -/
theorem C7_defaults_filled_on_success (r : ConfigRecord) (resp : HttpOutcome)
    (ht : r.temperature = none) (hp : r.prompt = none)
    (_hs : (validate_input r resp).outcome = Outcome.success) :
    (validate_input r resp).data.temperature = some DEFAULT_TEMPERATURE
    ∧ (validate_input r resp).data.prompt = some DEFAULT_PROMPT := by
  constructor
  · rw [validate_input_data]
    show some (r.temperature.getD DEFAULT_TEMPERATURE) = some DEFAULT_TEMPERATURE
    rw [ht]
    rfl
  · rw [validate_input_data]
    show some (r.prompt.getD DEFAULT_PROMPT) = some DEFAULT_PROMPT
    rw [hp]
    rfl

/-- Claim C7, witness: the spec's concrete scenario — the requested
model is the body's single entry, validation succeeds, and both defaults
are filled in. -/
theorem C7_defaults_filled_on_success_witness :
    (validate_input
        ⟨some "My Whisper", some "sk-abc", some "whisper-large-v3", none, none⟩
        (HttpOutcome.response 200 "OK"
          (some [⟨some "whisper-large-v3", []⟩]))).outcome = Outcome.success
    ∧ (validate_input
        ⟨some "My Whisper", some "sk-abc", some "whisper-large-v3", none, none⟩
        (HttpOutcome.response 200 "OK"
          (some [⟨some "whisper-large-v3", []⟩]))).data.temperature
      = some DEFAULT_TEMPERATURE
    ∧ (validate_input
        ⟨some "My Whisper", some "sk-abc", some "whisper-large-v3", none, none⟩
        (HttpOutcome.response 200 "OK"
          (some [⟨some "whisper-large-v3", []⟩]))).data.prompt
      = some DEFAULT_PROMPT :=
  ⟨rfl,
   (C7_defaults_filled_on_success
     ⟨some "My Whisper", some "sk-abc", some "whisper-large-v3", none, none⟩
     (HttpOutcome.response 200 "OK" (some [⟨some "whisper-large-v3", []⟩]))
     rfl rfl rfl).1,
   (C7_defaults_filled_on_success
     ⟨some "My Whisper", some "sk-abc", some "whisper-large-v3", none, none⟩
     (HttpOutcome.response 200 "OK" (some [⟨some "whisper-large-v3", []⟩]))
     rfl rfl rfl).2⟩

/-- Claim C8: whatever the record and the call's outcome, the final
record's `api_key` equals the supplied one (line 49 restores it), and
every event written to the log sink carries the credential only as the
mask `<api_key>` (the only event embedding the record is the debug trace
of line 48, emitted while the field holds the mask set at line 47). -/
theorem C8_api_key_masked_in_log (r : ConfigRecord) (resp : HttpOutcome) :
    (validate_input r resp).data.api_key = r.api_key
    ∧ (validate_input r resp).log.all maskedEvent = true := by
  constructor
  · rw [validate_input_data]
  · cases resp with
    | transportError => rfl
    | response status reason body =>
      show (if classify status body r.model = Outcome.success
            then [LogEvent.debugRecord { r with api_key := some API_KEY_MASK },
                  LogEvent.debugRequest status reason, LogEvent.debugSuccess]
            else [LogEvent.debugRecord { r with api_key := some API_KEY_MASK },
                  LogEvent.debugRequest status reason]).all maskedEvent = true
      split <;> rfl

/-- Claim C9: `validate_input` modifies at most `temperature` and
`prompt`: `name`, `api_key` and `model` come out equal to their input
values whatever the outcome, and `temperature`/`prompt` values present
in the input are left unchanged. -/
theorem C9_frame_only_temperature_prompt (r : ConfigRecord)
    (resp : HttpOutcome) :
    (validate_input r resp).data.name = r.name
    ∧ (validate_input r resp).data.api_key = r.api_key
    ∧ (validate_input r resp).data.model = r.model
    ∧ (∀ t, r.temperature = some t →
        (validate_input r resp).data.temperature = some t)
    ∧ (∀ p, r.prompt = some p →
        (validate_input r resp).data.prompt = some p) := by
  refine ⟨?_, ?_, ?_, ?_, ?_⟩
  · rw [validate_input_data]
  · rw [validate_input_data]
  · rw [validate_input_data]
  · intro t ht
    rw [validate_input_data]
    show some (r.temperature.getD DEFAULT_TEMPERATURE) = some t
    rw [ht]
    rfl
  · intro p hp
    rw [validate_input_data]
    show some (r.prompt.getD DEFAULT_PROMPT) = some p
    rw [hp]
    rfl

/-- Claim C9, witness: a record with both optional fields present keeps
them unchanged through a failed validation. -/
theorem C9_frame_only_temperature_prompt_witness :
    (validate_input
        ⟨some "My Whisper", some "sk-abc", some "whisper-large-v3",
         some (1/2), some "Specialty terms: Groq"⟩
        (HttpOutcome.response 401 "Unauthorized" none)).data.temperature
      = some (1/2)
    ∧ (validate_input
        ⟨some "My Whisper", some "sk-abc", some "whisper-large-v3",
         some (1/2), some "Specialty terms: Groq"⟩
        (HttpOutcome.response 401 "Unauthorized" none)).data.prompt
      = some "Specialty terms: Groq" :=
  ⟨(C9_frame_only_temperature_prompt _ _).2.2.2.1 (1/2) rfl,
   (C9_frame_only_temperature_prompt _ _).2.2.2.2 "Specialty terms: Groq" rfl⟩

/-- Claim C10: the normalization of lines 51-54 happens before the
remote call, so even when validation fails with a domain error kind the
caller observes the absent `temperature` and `prompt` already filled
with the defaults. -/
theorem C10_defaults_filled_even_on_failure (r : ConfigRecord)
    (resp : HttpOutcome) (kind : ErrorKind)
    (ht : r.temperature = none) (hp : r.prompt = none)
    (_hf : (validate_input r resp).outcome = Outcome.failure kind) :
    (validate_input r resp).data.temperature = some DEFAULT_TEMPERATURE
    ∧ (validate_input r resp).data.prompt = some DEFAULT_PROMPT := by
  constructor
  · rw [validate_input_data]
    show some (r.temperature.getD DEFAULT_TEMPERATURE) = some DEFAULT_TEMPERATURE
    rw [ht]
    rfl
  · rw [validate_input_data]
    show some (r.prompt.getD DEFAULT_PROMPT) = some DEFAULT_PROMPT
    rw [hp]
    rfl

/-- Claim C10, witness: a 401 failure on a record lacking both optional
fields still leaves the defaults filled in. -/
theorem C10_defaults_filled_even_on_failure_witness :
    (validate_input
        ⟨some "My Whisper", some "sk-abc", some "whisper-large-v3", none, none⟩
        (HttpOutcome.response 401 "Unauthorized" none)).outcome
      = Outcome.failure ErrorKind.InvalidAPIKey
    ∧ (validate_input
        ⟨some "My Whisper", some "sk-abc", some "whisper-large-v3", none, none⟩
        (HttpOutcome.response 401 "Unauthorized" none)).data.temperature
      = some DEFAULT_TEMPERATURE
    ∧ (validate_input
        ⟨some "My Whisper", some "sk-abc", some "whisper-large-v3", none, none⟩
        (HttpOutcome.response 401 "Unauthorized" none)).data.prompt
      = some DEFAULT_PROMPT :=
  ⟨rfl,
   (C10_defaults_filled_even_on_failure
     ⟨some "My Whisper", some "sk-abc", some "whisper-large-v3", none, none⟩
     (HttpOutcome.response 401 "Unauthorized" none)
     ErrorKind.InvalidAPIKey rfl rfl rfl).1,
   (C10_defaults_filled_even_on_failure
     ⟨some "My Whisper", some "sk-abc", some "whisper-large-v3", none, none⟩
     (HttpOutcome.response 401 "Unauthorized" none)
     ErrorKind.InvalidAPIKey rfl rfl rfl).2⟩

end GroqWhisper
